import Mathlib

/-!
Verification of the Content Extraction & Heuristic Validation Pipeline of the
Job-Assistant repository (`CV_Coverletter/cv_coverletter.py`).

The Python functions are shallowly embedded as executable Lean definitions:
  * `is_probable_job_url`        — URL plausibility heuristic
  * `fetch_job_text`             — HTML title/body-text extraction (over a parsed-page model)
  * `extract_pdf_text`           — per-page tolerant PDF text extraction (over a page-result model)
  * `looks_like_cv`, `looks_like_job_description` — cue-counting classifiers
  * `build_user_prompt`          — prompt assembler
  * `mainRun`                    — the control flow of `main` (exit codes, stdout, LLM call)

Python string primitives used by the source (`in`, `str.lower`, `str.strip`,
`str.startswith` via the `^https?://` regex) are modelled as character-list
functions so that every definition evaluates inside the kernel.
-/

set_option maxRecDepth 100000

/-- Model of Python `str.strip()`: drop whitespace characters from both ends. -/
def pyStrip (s : String) : String :=
  String.mk (((s.data.dropWhile Char.isWhitespace).reverse.dropWhile Char.isWhitespace).reverse)

/-- Model of Python `str.lower()` (ASCII case folding, which covers every string
the source lowers). -/
def pyLower (s : String) : String :=
  String.mk (s.data.map Char.toLower)

/-- Helper for substring containment: does `needle` occur in `hay` at some position? -/
def subAt : List Char → List Char → Bool
  | hay, needle =>
    needle.isPrefixOf hay ||
    match hay with
    | [] => false
    | _ :: tl => subAt tl needle

/-- Model of Python `needle in hay` on strings. -/
def containsSub (hay needle : String) : Bool :=
  subAt hay.data needle.data

/-- Model of Python `str.startswith` / the anchored regex `re.match(r"pattern", s)`
for a literal pattern. -/
def strHasPrefix (p s : String) : Bool :=
  p.data.isPrefixOf s.data

/-- The path-hint list of `is_probable_job_url` (source line 56), verbatim,
including the redundant trailing `"/positions/"` entry. -/
def urlHints : List String :=
  ["/jobs", "/careers", "/job/", "/positions", "/openings", "/positions/"]

/-- Embedding of `is_probable_job_url` (source lines 51–57).  The argument is an
`Option String` so that the Python call with `None` (guarded by `url or ""`) is
representable.  `re.match(r"^https?://", url or "")` is the case-sensitive
prefix test for `http://` or `https://`; on success the hints are searched in
`url.lower()`. -/
def is_probable_job_url (url : Option String) : Bool :=
  if !(strHasPrefix "http://" (url.getD "") || strHasPrefix "https://" (url.getD "")) then
    false
  else
    urlHints.any (fun h => containsSub (pyLower (url.getD "")) h)

/-- One page of a parsed PDF, as `PyPDF2` presents it to the loop in
`extract_pdf_text`: `ok t` means `page.extract_text()` returned `t` (Python may
return `None`, hence the `Option`), `fault` means the call raised. -/
inductive PageResult where
  | ok : Option String → PageResult
  | fault : PageResult
deriving DecidableEq, Repr

/-- The loop body of `extract_pdf_text` (source lines 84–89): a successful page
appends `extract_text() or ""` to `chunks`; a raising page is skipped (`except
Exception: pass`), appending nothing. -/
def pdfStep (chunks : List String) : PageResult → List String
  | PageResult.ok t => chunks ++ [t.getD ""]
  | PageResult.fault => chunks

/-- Embedding of `extract_pdf_text` (source lines 79–90) over the list of page
outcomes: fold the loop body over the pages, join with newlines, strip. -/
def extract_pdf_text (pages : List PageResult) : String :=
  pyStrip (String.intercalate "\n" (pages.foldl pdfStep []))

/-- What each page contributes to the chunk list: its text (with `None` coerced
to `""`) for a successful page, nothing for a faulting page. -/
def pageChunk : PageResult → Option String
  | PageResult.ok t => some (t.getD "")
  | PageResult.fault => none

/-- The CV cue vocabulary (source line 97), verbatim. -/
def cvCues : List String :=
  ["experience", "education", "skills", "projects", "summary", "work", "certification"]

/-- Embedding of `looks_like_cv` (source lines 93–99): reject empty or
shorter-than-500 text, otherwise count cues occurring in the lowered text and
pass at ≥ 2. -/
def looks_like_cv (text : String) : Bool :=
  if text.isEmpty || text.length < 500 then false
  else decide (2 ≤ cvCues.countP (fun c => containsSub (pyLower text) c))

/-- The job-description cue vocabulary (source line 106), verbatim. -/
def jdCues : List String :=
  ["responsibilities", "requirements", "qualifications", "role", "about the role", "what you'll do"]

/-- Embedding of `looks_like_job_description` (source lines 102–108): reject
empty or shorter-than-500 text, otherwise count cues occurring in the lowered
text and pass at ≥ 1. -/
def looks_like_job_description (text : String) : Bool :=
  if text.isEmpty || text.length < 500 then false
  else decide (1 ≤ jdCues.countP (fun c => containsSub (pyLower text) c))

/-- Embedding of `build_user_prompt` (source lines 111–121): the f-string with
the three sections interpolated verbatim. -/
def build_user_prompt (job_text cv_text url : String) : String :=
  "\nJob Posting:\n" ++ job_text ++ "\n\nCV:\n" ++ cv_text ++ "\n\nUrl:\n" ++ url ++ "\n"

mutual
/-- A node of the parsed HTML document: a text fragment or an element with a
tag name and children, modelling the BeautifulSoup tree that `fetch_job_text`
manipulates. -/
inductive Node where
  | text : String → Node
  | elem : String → NodeList → Node
/-- A list of sibling HTML nodes (mutually inductive with `Node` so that all
tree recursions are structural). -/
inductive NodeList where
  | nil : NodeList
  | cons : Node → NodeList → NodeList
end

/-- The tag list passed to `soup.body([...])` in `fetch_job_text` (source lines
69–70), verbatim. -/
def removedTags : List String :=
  ["script", "style", "img", "input", "nav", "footer", "header", "noscript", "svg", "button", "form"]

mutual
/-- Effect of `irrelevant.decompose()` on one node: an element whose tag is in
`removedTags` disappears with its whole subtree; anything else keeps its pruned
children. -/
def pruneNode : Node → Option Node
  | Node.text s => some (Node.text s)
  | Node.elem t ch =>
    if removedTags.contains t then none else some (Node.elem t (pruneChildren ch))
/-- Prune every node of a sibling list (the `for irrelevant in soup.body([...])`
loop decomposes every matching descendant). -/
def pruneChildren : NodeList → NodeList
  | NodeList.nil => NodeList.nil
  | NodeList.cons n rest =>
    match pruneNode n with
    | some m => NodeList.cons m (pruneChildren rest)
    | none => pruneChildren rest
end

/-- Decompose matching descendants of the body; `soup.body([...])` never
removes the body element itself. -/
def pruneBody : Node → Node
  | Node.text s => Node.text s
  | Node.elem t ch => Node.elem t (pruneChildren ch)

mutual
/-- All text fragments of a node, in document order. -/
def fragmentsNode : Node → List String
  | Node.text s => [s]
  | Node.elem _ ch => fragmentsList ch
/-- All text fragments of a sibling list, in document order. -/
def fragmentsList : NodeList → List String
  | NodeList.nil => []
  | NodeList.cons n rest => fragmentsNode n ++ fragmentsList rest
end

/-- Model of BeautifulSoup `get_text(separator="\n", strip=True)`: strip each
text fragment, drop the ones that become empty, join with newlines. -/
def get_text (n : Node) : String :=
  String.intercalate "\n" (((fragmentsNode n).map pyStrip).filter (fun f => !f.isEmpty))

/-- A successfully fetched and parsed page as `fetch_job_text` sees it:
`title` is the `<title>` string when the tag exists and has a string (both
absences fall back alike), `body` the body element when present, `root` the
whole document (the fallback extraction target). -/
structure Soup where
  title : Option String
  body : Option Node
  root : Node

/-- Embedding of the parsing half of `fetch_job_text` (source lines 64–76),
after the network fetch succeeded: trimmed title with the "No title found"
fallback, and body text extracted after decomposing the irrelevant elements
(whole-document text when there is no body). -/
def fetch_job_text (s : Soup) : String × String :=
  (match s.title with
    | some t => pyStrip t
    | none => "No title found",
   match s.body with
    | some b => get_text (pruneBody b)
    | none => get_text s.root)

/-- The fixed guidance message printed on heuristic rejection (source lines
159–163), with Python's adjacent string literals concatenated. -/
def genericRejection : String :=
  "It looks like either the job posting URL/text or the CV content may be invalid or incomplete.\n\nPlease make sure you: \n- Paste a real job posting URL (from a careers site or job board)\n- Provide a proper CV PDF (not random text or a scan without selectable text)\n\nOnce both are valid, I can analyze the CV against the job description and draft a short cover letter."

/-- The advisory notice printed when the URL fails the plausibility check
(source line 138). -/
def urlNotice : String :=
  "[notice] The provided URL doesn't look like a typical job posting. The assistant may decline to analyze."

/-- Outcomes of the effectful collaborators of `main`, supplied as oracles:
the credential lookup, the CV-file existence test, the parsed CLI arguments,
and the three fallible calls (`fetch_job_text`, `extract_pdf_text`, the chat
completion), each an `Except` carrying the exception text on failure. -/
structure Env where
  api_key : Option String
  cv_exists : Bool
  job_url : String
  cv_path : String
  fetch : Except String (String × String)
  extractPdf : Except String String
  llm : Except String String

/-- Observable outcome of one run of `main`: the process exit code, whether the
chat-completion call was attempted, and the lines printed to stdout and
stderr. -/
structure RunResult where
  exitCode : Nat
  llmCalled : Bool
  stdout : List String
  stderr : List String
deriving DecidableEq, Repr

/-- Embedding of the control flow of `main` (source lines 124–190): missing
credential exits 2; the URL notice is printed before the CV-file check; a
missing CV file exits 2; a fetch failure exits 1; a PDF extraction failure
exits 1; heuristic rejection prints the guidance message and exits 0 without
calling the model; an API failure exits 1; success prints the response and
exits 0. -/
def mainRun (env : Env) : RunResult :=
  match env.api_key with
  | none =>
    ⟨2, false, [], ["[error] OPENAI_API_KEY not set. Put it in a .env or environment."]⟩
  | some _ =>
    let notices :=
      if is_probable_job_url (some env.job_url) then [] else [urlNotice]
    if !env.cv_exists then
      ⟨2, false, notices, ["[error] CV file not found: " ++ env.cv_path]⟩
    else
      match env.fetch with
      | Except.error e =>
        ⟨1, false, notices, ["[error] Failed to fetch job posting: " ++ e]⟩
      | Except.ok (_, job_text) =>
        match env.extractPdf with
        | Except.error e =>
          ⟨1, false, notices, ["[error] Failed to extract CV: " ++ e]⟩
        | Except.ok cv_text =>
          if !looks_like_job_description job_text || !looks_like_cv cv_text then
            ⟨0, false, notices ++ [genericRejection], []⟩
          else
            match env.llm with
            | Except.error e =>
              ⟨1, true, notices, ["[error] OpenAI API error: " ++ e]⟩
            | Except.ok content =>
              ⟨0, true, notices ++ [content], []⟩

/-- The five path hints named by the specification (the source list carries a
sixth, redundant `"/positions/"` entry subsumed by `"/positions"`). -/
def specPathHints : List String :=
  ["/jobs", "/careers", "/job/", "/positions", "/openings"]

/-- A 699-character job-description sample whose only cue is
`responsibilities`. -/
def jdSample : String :=
  "Responsibilities include things. " ++
    String.join (List.replicate 18 "lorem ipsum dolor sit amet, id elegi ")

/-- A 50-character CV sample, far below the 500-character floor. -/
def cvShortSample : String :=
  String.mk (List.replicate 50 'x')

/-- A 613-character CV sample containing exactly the cues `experience` and
`education`. -/
def cvSample : String :=
  "experience education " ++
    String.join (List.replicate 16 "lorem ipsum dolor sit amet, id elegi ")

/-- The example body of the specification: a `<nav>` block with text
"Home About" next to a content block with text "Job Description Here". -/
def exampleBody : Node :=
  Node.elem "body"
    (NodeList.cons (Node.elem "nav" (NodeList.cons (Node.text "Home About") NodeList.nil))
      (NodeList.cons (Node.elem "div" (NodeList.cons (Node.text "Job Description Here") NodeList.nil))
        NodeList.nil))

/-! ### Helper lemmas -/

lemma prefixOf_char_iff {l₁ l₂ : List Char} : l₁.isPrefixOf l₂ = true ↔ l₁ <+: l₂ :=
  List.isPrefixOf_iff_prefix

lemma subAt_nil_eq (needle : List Char) : subAt [] needle = needle.isPrefixOf [] := by
  simp [subAt]

lemma subAt_cons_eq (c : Char) (tl needle : List Char) :
    subAt (c :: tl) needle = (needle.isPrefixOf (c :: tl) || subAt tl needle) := rfl

lemma subAt_mono {n n' : List Char} (hp : n' <+: n) :
    ∀ hay : List Char, subAt hay n = true → subAt hay n' = true := by
  intro hay
  induction hay with
  | nil =>
    intro hs
    rw [subAt_nil_eq] at hs ⊢
    rw [prefixOf_char_iff] at hs ⊢
    exact hp.trans hs
  | cons c tl ih =>
    intro hs
    rw [subAt_cons_eq] at hs ⊢
    rcases Bool.or_eq_true_iff.mp hs with h1 | h2
    · refine Bool.or_eq_true_iff.mpr (Or.inl ?_)
      rw [prefixOf_char_iff] at h1 ⊢
      exact hp.trans h1
    · exact Bool.or_eq_true_iff.mpr (Or.inr (ih h2))

lemma containsSub_mono {hay n n' : String} (hp : n'.data <+: n.data)
    (h : containsSub hay n = true) : containsSub hay n' = true :=
  subAt_mono hp hay.data h

lemma two_le_length_of_mem_ne {α : Type} {a b : α} (hab : a ≠ b) :
    ∀ {l : List α}, a ∈ l → b ∈ l → 2 ≤ l.length := by
  intro l
  induction l with
  | nil => intro ha; simp at ha
  | cons x xs ih =>
    intro ha hb
    rcases List.mem_cons.mp ha with rfl | ha'
    · rcases List.mem_cons.mp hb with rfl | hb'
      · exact absurd rfl hab
      · have h0 : 0 < xs.length := List.length_pos.mpr (List.ne_nil_of_mem hb')
        simpa using Nat.succ_le_succ h0
    · rcases List.mem_cons.mp hb with rfl | hb'
      · have h0 : 0 < xs.length := List.length_pos.mpr (List.ne_nil_of_mem ha')
        simpa using Nat.succ_le_succ h0
      · exact Nat.le_trans (ih ha' hb') (by simp)

lemma two_le_countP_iff {α : Type} [DecidableEq α] (l : List α) (p : α → Bool)
    (hl : l.Nodup) :
    2 ≤ l.countP p ↔ ∃ a ∈ l, ∃ b ∈ l, a ≠ b ∧ p a = true ∧ p b = true := by
  rw [List.countP_eq_length_filter]
  constructor
  · intro h2
    match hf : l.filter p with
    | [] => rw [hf] at h2; simp at h2
    | [a] => rw [hf] at h2; simp at h2
    | a :: b :: rest =>
      have hnd : (a :: b :: rest).Nodup := hf ▸ hl.filter p
      have hab : a ≠ b := by
        have hx := (List.nodup_cons.mp hnd).1
        intro h; exact hx (h ▸ List.mem_cons_self b rest)
      have haf : a ∈ l.filter p := by rw [hf]; exact List.mem_cons_self _ _
      have hbf : b ∈ l.filter p := by
        rw [hf]; exact List.mem_cons.mpr (Or.inr (List.mem_cons_self _ _))
      obtain ⟨hal, hpa⟩ := List.mem_filter.mp haf
      obtain ⟨hbl, hpb⟩ := List.mem_filter.mp hbf
      exact ⟨a, hal, b, hbl, hab, hpa, hpb⟩
  · rintro ⟨a, hal, b, hbl, hab, hpa, hpb⟩
    exact two_le_length_of_mem_ne hab
      (List.mem_filter.mpr ⟨hal, hpa⟩) (List.mem_filter.mpr ⟨hbl, hpb⟩)

lemma foldl_pdfStep (pages : List PageResult) :
    ∀ acc : List String,
      pages.foldl pdfStep acc = acc ++ pages.filterMap pageChunk := by
  induction pages with
  | nil => intro acc; simp
  | cons p ps ih =>
    intro acc
    cases p <;> simp [pdfStep, pageChunk, ih]

lemma isEmpty_false_of_le_length {t : String} (h : 500 ≤ t.length) :
    t.isEmpty = false := by
  cases e : t.isEmpty
  · rfl
  · exfalso
    have ht : t = "" := (String.isEmpty_iff t).mp e
    rw [ht] at h
    simp at h

/-! ### Claim theorems -/

/-- C1 counterexample: the claim says a faulting page contributes an empty
string, making the result the newline-join of one entry per page (empty for the
faulting page), trimmed.  On a 3-page document whose middle page faults, the
code instead skips the page entirely, so the two strings differ
(`"alpha\ngamma"` versus `"alpha\n\ngamma"`). -/
theorem c1_counterexample :
    extract_pdf_text
        [PageResult.ok (some "alpha"), PageResult.fault, PageResult.ok (some "gamma")] ≠
      pyStrip (String.intercalate "\n"
        ([PageResult.ok (some "alpha"), PageResult.fault, PageResult.ok (some "gamma")].map
          (fun p => match p with
            | PageResult.ok t => t.getD ""
            | PageResult.fault => ""))) := by
  decide

/-- C1 (amended): `extract_pdf_text` swallows a faulting page's error without
aborting the document, but the page contributes no entry at all (rather than an
empty string): the result is the newline-join of one entry per non-faulting
page in document order, trimmed; on a 3-page document where only page 2 faults
the result still contains the text of pages 1 and 3 and is non-empty. -/
theorem c1_pdf_fault_pages_skipped :
    (∀ pages : List PageResult,
        extract_pdf_text pages =
          pyStrip (String.intercalate "\n" (pages.filterMap pageChunk)))
    ∧ containsSub (extract_pdf_text
        [PageResult.ok (some "page one text"), PageResult.fault,
         PageResult.ok (some "page three text")]) "page one text" = true
    ∧ containsSub (extract_pdf_text
        [PageResult.ok (some "page one text"), PageResult.fault,
         PageResult.ok (some "page three text")]) "page three text" = true
    ∧ extract_pdf_text
        [PageResult.ok (some "page one text"), PageResult.fault,
         PageResult.ok (some "page three text")] ≠ "" := by
  refine ⟨?_, by decide, by decide, by decide⟩
  intro pages
  simp [extract_pdf_text, foldl_pdfStep]

/-- C2: every text shorter than 500 characters (the empty string included) is
rejected by both classifiers, regardless of its cue content. -/
theorem c2_short_text_rejected (t : String) (h : t.length < 500) :
    looks_like_cv t = false ∧ looks_like_job_description t = false := by
  constructor <;> simp [looks_like_cv, looks_like_job_description, h]

/-- C2 witness: a 52-character cue-rich text is rejected by both classifiers. -/
theorem c2_short_text_rejected_witness :
    ("experience education skills summary responsibilities".length < 500)
    ∧ looks_like_cv "experience education skills summary responsibilities" = false
    ∧ looks_like_job_description "experience education skills summary responsibilities" = false := by
  refine ⟨by decide, ?_⟩
  exact c2_short_text_rejected "experience education skills summary responsibilities" (by decide)

/-- C3: for text of at least 500 characters, the CV classifier passes exactly
when at least two distinct cue words of its fixed vocabulary occur as
substrings of the lower-cased text. -/
theorem c3_cv_classifier_two_cues (t : String) (h : 500 ≤ t.length) :
    looks_like_cv t = true ↔
      ∃ c₁ ∈ cvCues, ∃ c₂ ∈ cvCues, c₁ ≠ c₂ ∧
        containsSub (pyLower t) c₁ = true ∧ containsSub (pyLower t) c₂ = true := by
  have hne : t.isEmpty = false := isEmpty_false_of_le_length h
  have hlt : ¬ t.length < 500 := by omega
  have hcv : looks_like_cv t =
      decide (2 ≤ cvCues.countP (fun c => containsSub (pyLower t) c)) := by
    simp [looks_like_cv, hne, hlt]
  rw [hcv, decide_eq_true_eq]
  exact two_le_countP_iff cvCues _ (by decide)

/-- C3 witness: a 554-character text containing exactly the cues `experience`
and `education` passes the CV classifier, as the equivalence predicts. -/
theorem c3_cv_classifier_two_cues_witness :
    (500 ≤ (String.join (List.replicate 16 "lorem ipsum dolor sit amet, id elegi ") ++
        "experience education").length)
    ∧ (looks_like_cv (String.join (List.replicate 16 "lorem ipsum dolor sit amet, id elegi ") ++
        "experience education") = true ↔
      ∃ c₁ ∈ cvCues, ∃ c₂ ∈ cvCues, c₁ ≠ c₂ ∧
        containsSub (pyLower (String.join (List.replicate 16 "lorem ipsum dolor sit amet, id elegi ") ++
          "experience education")) c₁ = true ∧
        containsSub (pyLower (String.join (List.replicate 16 "lorem ipsum dolor sit amet, id elegi ") ++
          "experience education")) c₂ = true) := by
  refine ⟨by decide, ?_⟩
  exact c3_cv_classifier_two_cues _ (by decide)

/-- C4: for text of at least 500 characters, the job-description classifier
passes exactly when at least one cue word of its fixed vocabulary occurs as a
substring of the lower-cased text. -/
theorem c4_jd_classifier_one_cue (t : String) (h : 500 ≤ t.length) :
    looks_like_job_description t = true ↔
      ∃ c ∈ jdCues, containsSub (pyLower t) c = true := by
  have hne : t.isEmpty = false := isEmpty_false_of_le_length h
  have hlt : ¬ t.length < 500 := by omega
  have hjd : looks_like_job_description t =
      decide (1 ≤ jdCues.countP (fun c => containsSub (pyLower t) c)) := by
    simp [looks_like_job_description, hne, hlt]
  rw [hjd, decide_eq_true_eq]
  exact List.countP_pos_iff

/-- C4 witness: a 624-character text whose only cue is `responsibilities`
passes the job-description classifier, as the equivalence predicts. -/
theorem c4_jd_classifier_one_cue_witness :
    (500 ≤ ("Responsibilities include things. " ++
        String.join (List.replicate 18 "lorem ipsum dolor sit amet, id elegi ")).length)
    ∧ (looks_like_job_description ("Responsibilities include things. " ++
        String.join (List.replicate 18 "lorem ipsum dolor sit amet, id elegi ")) = true ↔
      ∃ c ∈ jdCues, containsSub (pyLower ("Responsibilities include things. " ++
        String.join (List.replicate 18 "lorem ipsum dolor sit amet, id elegi "))) c = true) := by
  refine ⟨by decide, ?_⟩
  exact c4_jd_classifier_one_cue _ (by decide)

/-- C5: `is_probable_job_url` returns true only for strings with an `http://`
or `https://` scheme whose lower-cased form contains one of the five path
hints named by the specification; the careers URL passes, the `/about` URL and
the `ftp` URL fail. -/
theorem c5_url_plausibility :
    (∀ u : String, is_probable_job_url (some u) = true →
        (strHasPrefix "http://" u = true ∨ strHasPrefix "https://" u = true) ∧
        ∃ hint ∈ specPathHints, containsSub (pyLower u) hint = true)
    ∧ is_probable_job_url (some "https://company.com/careers/123") = true
    ∧ is_probable_job_url (some "https://company.com/about") = false
    ∧ is_probable_job_url (some "ftp://company.com/jobs") = false := by
  refine ⟨?_, by decide, by decide, by decide⟩
  intro u hu
  by_cases hs : (strHasPrefix "http://" u || strHasPrefix "https://" u) = true
  · refine ⟨Bool.or_eq_true_iff.mp hs, ?_⟩
    have hany : urlHints.any (fun hint => containsSub (pyLower u) hint) = true := by
      have hraw : urlHints.any (fun hint => containsSub (pyLower ((some u).getD "")) hint) = true := by
        rw [is_probable_job_url] at hu
        simpa [Option.getD, hs] using hu
      simpa [Option.getD] using hraw
    rw [List.any_eq_true] at hany
    obtain ⟨hint, hmem, hc⟩ := hany
    simp only [urlHints, List.mem_cons, List.not_mem_nil, or_false] at hmem
    rcases hmem with rfl | rfl | rfl | rfl | rfl | rfl
    · exact ⟨"/jobs", by decide, hc⟩
    · exact ⟨"/careers", by decide, hc⟩
    · exact ⟨"/job/", by decide, hc⟩
    · exact ⟨"/positions", by decide, hc⟩
    · exact ⟨"/openings", by decide, hc⟩
    · exact ⟨"/positions", by decide, containsSub_mono (by decide) hc⟩
  · exfalso
    rw [is_probable_job_url] at hu
    simp [Option.getD, hs] at hu

/-- C5 witness: instantiating the only-if direction at
`"https://x.example/jobs"`. -/
theorem c5_url_plausibility_witness :
    (strHasPrefix "http://" "https://x.example/jobs" = true ∨
      strHasPrefix "https://" "https://x.example/jobs" = true) ∧
    ∃ hint ∈ specPathHints, containsSub (pyLower "https://x.example/jobs") hint = true :=
  c5_url_plausibility.1 "https://x.example/jobs" (by decide)

/-- C8: `build_user_prompt` yields one text block with the labelled sections
job posting, CV, URL in that fixed order, each input embedded verbatim. -/
theorem c8_prompt_sections (job_text cv_text url : String) :
    ∃ pre mid₁ mid₂ post : String,
      build_user_prompt job_text cv_text url =
        pre ++ job_text ++ mid₁ ++ cv_text ++ mid₂ ++ url ++ post ∧
      containsSub pre "Job Posting:" = true ∧
      containsSub mid₁ "CV:" = true ∧
      containsSub mid₂ "Url:" = true :=
  ⟨"\nJob Posting:\n", "\n\nCV:\n", "\n\nUrl:\n", "\n", rfl, by decide, by decide, by decide⟩

/-- C6: whenever the credential is present, the CV file exists, fetch and PDF
extraction succeed, and either classifier rejects, `main` exits with status 0,
never attempts the generative call, and prints the fixed guidance message. -/
theorem c6_heuristic_rejection (k ju cp tl jt cvt : String)
    (llm : Except String String)
    (hrej : looks_like_job_description jt = false ∨ looks_like_cv cvt = false) :
    (mainRun ⟨some k, true, ju, cp, Except.ok (tl, jt), Except.ok cvt, llm⟩).exitCode = 0 ∧
    (mainRun ⟨some k, true, ju, cp, Except.ok (tl, jt), Except.ok cvt, llm⟩).llmCalled = false ∧
    genericRejection ∈
      (mainRun ⟨some k, true, ju, cp, Except.ok (tl, jt), Except.ok cvt, llm⟩).stdout := by
  have hcond : (!looks_like_job_description jt || !looks_like_cv cvt) = true := by
    rcases hrej with h | h <;> simp [h]
  refine ⟨?_, ?_, ?_⟩ <;> simp [mainRun, hcond]

/-- C6 witness: a 50-character CV together with a well-formed job description
(which the job-description classifier accepts) short-circuits to the rejection
outcome: exit code 0, no generative call, guidance message printed. -/
theorem c6_heuristic_rejection_witness :
    looks_like_job_description jdSample = true ∧
    cvShortSample.length = 50 ∧
    ((mainRun ⟨some "sk-test", true, "https://company.com/careers/123", "cv.pdf",
        Except.ok ("Acme role", jdSample), Except.ok cvShortSample,
        Except.ok "never reached"⟩).exitCode = 0 ∧
     (mainRun ⟨some "sk-test", true, "https://company.com/careers/123", "cv.pdf",
        Except.ok ("Acme role", jdSample), Except.ok cvShortSample,
        Except.ok "never reached"⟩).llmCalled = false ∧
     genericRejection ∈
       (mainRun ⟨some "sk-test", true, "https://company.com/careers/123", "cv.pdf",
          Except.ok ("Acme role", jdSample), Except.ok cvShortSample,
          Except.ok "never reached"⟩).stdout) := by
  refine ⟨by decide, by decide, ?_⟩
  exact c6_heuristic_rejection "sk-test" "https://company.com/careers/123" "cv.pdf"
    "Acme role" jdSample cvShortSample (Except.ok "never reached")
    (Or.inr (by decide))

/-- C7: the exit-code contract of `main`: 2 for a missing credential or missing
CV file; 1 for a fetch failure, a whole-document extraction failure, or a
generative-call failure; 0 for a heuristic rejection or a successful run. -/
theorem c7_exit_codes :
    (∀ (ce : Bool) (ju cp : String) (f : Except String (String × String))
        (x l : Except String String),
        (mainRun ⟨none, ce, ju, cp, f, x, l⟩).exitCode = 2) ∧
    (∀ (k ju cp : String) (f : Except String (String × String)) (x l : Except String String),
        (mainRun ⟨some k, false, ju, cp, f, x, l⟩).exitCode = 2) ∧
    (∀ (k ju cp e : String) (x l : Except String String),
        (mainRun ⟨some k, true, ju, cp, Except.error e, x, l⟩).exitCode = 1) ∧
    (∀ (k ju cp tl jt e : String) (l : Except String String),
        (mainRun ⟨some k, true, ju, cp, Except.ok (tl, jt), Except.error e, l⟩).exitCode = 1) ∧
    (∀ (k ju cp tl jt cvt : String) (l : Except String String),
        looks_like_job_description jt = false ∨ looks_like_cv cvt = false →
        (mainRun ⟨some k, true, ju, cp, Except.ok (tl, jt), Except.ok cvt, l⟩).exitCode = 0) ∧
    (∀ k ju cp tl jt cvt e : String,
        looks_like_job_description jt = true → looks_like_cv cvt = true →
        (mainRun ⟨some k, true, ju, cp, Except.ok (tl, jt), Except.ok cvt,
          Except.error e⟩).exitCode = 1) ∧
    (∀ k ju cp tl jt cvt c : String,
        looks_like_job_description jt = true → looks_like_cv cvt = true →
        (mainRun ⟨some k, true, ju, cp, Except.ok (tl, jt), Except.ok cvt,
          Except.ok c⟩).exitCode = 0) := by
  refine ⟨fun ce ju cp f x l => rfl, fun k ju cp f x l => rfl,
    fun k ju cp e x l => rfl, fun k ju cp tl jt e l => rfl, ?_, ?_, ?_⟩
  · intro k ju cp tl jt cvt l hrej
    have hcond : (!looks_like_job_description jt || !looks_like_cv cvt) = true := by
      rcases hrej with h | h <;> simp [h]
    simp [mainRun, hcond]
  · intro k ju cp tl jt cvt e h1 h2
    simp [mainRun, h1, h2]
  · intro k ju cp tl jt cvt c h1 h2
    simp [mainRun, h1, h2]

/-- C7 witness: a fully valid run (accepted by both classifiers) whose
generative call succeeds exits with code 0. -/
theorem c7_exit_codes_witness :
    looks_like_job_description jdSample = true ∧ looks_like_cv cvSample = true ∧
    (mainRun ⟨some "sk-test", true, "https://company.com/careers/123", "cv.pdf",
        Except.ok ("Acme role", jdSample), Except.ok cvSample,
        Except.ok "Dear hiring manager"⟩).exitCode = 0 := by
  refine ⟨by decide, by decide, ?_⟩
  exact c7_exit_codes.2.2.2.2.2.2 "sk-test" "https://company.com/careers/123" "cv.pdf"
    "Acme role" jdSample cvSample "Dear hiring manager" (by decide) (by decide)

/-- C9: on a page with a body, `fetch_job_text` extracts the body text only
after decomposing the script/style/img/input/nav/footer/header/noscript/svg/
button/form elements, joining the surviving text fragments (each trimmed,
empties dropped) with newlines; on the spec's example body the result contains
"Job Description Here" and not "Home About". -/
theorem c9_html_extraction :
    (∀ (title : Option String) (b root : Node),
        (fetch_job_text ⟨title, some b, root⟩).2 =
          String.intercalate "\n"
            (((fragmentsNode (pruneBody b)).map pyStrip).filter (fun f => !f.isEmpty))) ∧
    containsSub (fetch_job_text ⟨some "Acme", some exampleBody, exampleBody⟩).2
      "Job Description Here" = true ∧
    containsSub (fetch_job_text ⟨some "Acme", some exampleBody, exampleBody⟩).2
      "Home About" = false := by
  refine ⟨fun title b root => rfl, by decide, by decide⟩

/-- C10: the scheme test of `is_probable_job_url` is case-sensitive — the
upper-case `HTTP://company.com/jobs` is rejected although its lower-cased form
contains the `/jobs` hint — and the empty string and `None` also yield false. -/
theorem c10_scheme_case_sensitive :
    is_probable_job_url (some "HTTP://company.com/jobs") = false ∧
    containsSub (pyLower "HTTP://company.com/jobs") "/jobs" = true ∧
    is_probable_job_url (some "") = false ∧
    is_probable_job_url none = false :=
  ⟨by decide, by decide, by decide, by decide⟩
